import Mathlib

/-!
Shallow embedding of `panopti` (src/panopti/ui/controls.py and
src/panopti/headless.py) for checking the natural-language specification.

Conventions of the embedding:
* Python objects become Lean structures; a mutating method becomes a function
  from the old structure to the new one, returning alongside it the observable
  effects (outbound emissions, callback invocations).
* A Python statement sequence that can raise is embedded in `Except`: an
  exception raised while evaluating the right-hand side of an assignment
  yields `.error` before the field update is applied, exactly as in Python,
  so the caller keeps the pre-call structure value.
* Python floats are modelled as exact rationals (`ℚ`); IEEE rounding, NaN and
  infinities are outside the model (no claim under check depends on them).
* Inbound payloads are modelled by `PyValue`, covering the payload shapes the
  wire protocol produces: None, bool, int, float, string, 4-tuple of floats.
  Parsing of numeric string literals by `float()` / `np.asarray` is abstracted
  as a decode failure: protocol payloads for the numeric controls are numbers,
  not numeral strings.
-/

namespace Panopti

inductive PyValue where
  | none
  | bool (b : Bool)
  | int (n : ℤ)
  | float (q : ℚ)
  | str (s : String)
  | tuple4 (a b c d : ℚ)
deriving DecidableEq, Repr

/-- Python `float(value)`: succeeds on numbers and booleans, raises
`TypeError`/`ValueError` on `None`, tuples and (non-numeral) strings. -/
def pyFloat : PyValue → Option ℚ
  | .float q => some q
  | .int n => some (n : ℚ)
  | .bool b => some (if b then 1 else 0)
  | .none => Option.none
  | .str _ => Option.none
  | .tuple4 _ _ _ _ => Option.none

/-- Python `bool(value)` (truthiness): total on every payload shape. -/
def pyTruthy : PyValue → Bool
  | .none => false
  | .bool b => b
  | .int n => decide (n ≠ 0)
  | .float q => decide (q ≠ 0)
  | .str s => decide (s ≠ "")
  | .tuple4 _ _ _ _ => true

/-- Python `str(value)`: total; the textual form of non-string payloads is
modelled by `toString` of the embedded value (its exact spelling is never
load-bearing for the claims, only that `str` of a string is that string). -/
def pyStr : PyValue → String
  | .str s => s
  | .bool b => cond b "True" "False"
  | .none => "None"
  | .int n => toString n
  | .float q => toString q
  | .tuple4 a b c d => toString a ++ "," ++ toString b ++ "," ++ toString c ++ "," ++ toString d

/-- `np.asarray(value, dtype=np.float32)`, the ColorPicker decode: a 4-tuple
becomes the 4-element array, scalars become 0-d arrays (modelled as singleton
lists), non-numeric input raises. float32 rounding is modelled as exact. -/
def npAsarrayF32 : PyValue → Option (List ℚ)
  | .tuple4 a b c d => some [a, b, c, d]
  | .float q => some [q]
  | .int n => some [(n : ℚ)]
  | .bool b => some [if b then 1 else 0]
  | .none => Option.none
  | .str _ => Option.none

/-- Arguments a control passes to its bound application callback (after the
leading session/viewer argument, which every invocation carries). -/
inductive Call where
  | sessionOnly
  | withFloat (q : ℚ)
  | withBool (b : Bool)
  | withStr (s : String)
  | withFloats (l : List ℚ)
  | withIndex (i : ℤ)
deriving DecidableEq, Repr

/-- Encoded images held by an ImageGallery: either a caller-supplied base64
string passed through unchanged, or the PNG encoding (external PIL + base64,
abstracted as the constructor) of a pixel-mode and a flat byte sequence. -/
inductive EncodedImage where
  | passthrough (s : String)
  | png (mode : String) (bytes : List ℕ)
deriving DecidableEq, Repr

/-- Outbound emission operations the controls call on the transport
(`socket_manager`). -/
inductive Emit where
  | deleteControl (name : String)
  | updateLabel (name text : String)
  | downloadFile (data : List ℕ) (filename : String)
  | updateImageGallery (name : String) (images : List EncodedImage)
deriving DecidableEq, Repr

/-- Values of a serialized control envelope (`to_dict` output fields). -/
inductive FieldValue where
  | str (s : String)
  | num (q : ℚ)
  | boolv (b : Bool)
  | strList (l : List String)
  | numList (l : List ℚ)
  | natv (n : ℕ)
deriving DecidableEq, Repr

/-- `UIControl._add_common_fields`: appends `group` (when the control belongs
to a group) and `viewer_id` (when the owning session exposes one) to the
envelope, in that order. -/
def addCommonFields (group : Option String) (viewerId : Option String)
    (data : List (String × FieldValue)) : List (String × FieldValue) :=
  (data ++ (match group with
    | some g => [("group", FieldValue.str g)]
    | Option.none => [])) ++
  (match viewerId with
    | some v => [("viewer_id", FieldValue.str v)]
    | Option.none => [])

/-- `UIControl.delete`: removes the registry entry of the control when present
(guarded `del`, so no `KeyError`), then always emits one deletion notice.
The registry is modelled by its key list (Python dict keys are unique). -/
def UIControl.delete (name : String) (registry : List String) :
    Except String (List String × List Emit) := do
  let registry' ←
    if name ∈ registry then
      if name ∈ registry then Except.ok (registry.filter (fun k => ¬ (k = name)))
      else Except.error "KeyError"
    else Except.ok registry
  Except.ok (registry', [Emit.deleteControl name])

structure Slider where
  name : String
  group : Option String
  has_callback : Bool
  min : ℚ
  max : ℚ
  step : ℚ
  initial : ℚ
  description : String
  current_value : ℚ
deriving DecidableEq, Repr

/-- `Slider.handle_event`: `self.current_value = float(value)` then optional
callback with the freshly decoded value. A failing `float()` raises before
the field store, so the caller keeps the old structure. -/
def Slider.handle_event (s : Slider) (v : PyValue) :
    Except String (Slider × List Call) :=
  match pyFloat v with
  | Option.none => Except.error "DecodeError"
  | some q =>
      Except.ok ({ s with current_value := q },
        if s.has_callback then [Call.withFloat q] else [])

def Slider.value (s : Slider) : ℚ := s.current_value

/-- Dispatcher-level view of one inbound event: a raised decode error is
caught and the control keeps its previous state (spec §4.9). -/
def Slider.dispatch (s : Slider) (v : PyValue) : Slider :=
  match s.handle_event v with
  | Except.ok (s', _) => s'
  | Except.error _ => s

def Slider.runEvents (s : Slider) (es : List PyValue) : Slider :=
  es.foldl Slider.dispatch s

def Slider.to_dict (s : Slider) (viewerId : Option String) :
    List (String × FieldValue) :=
  addCommonFields s.group viewerId
    [("id", FieldValue.str s.name),
     ("name", FieldValue.str s.name),
     ("type", FieldValue.str "slider"),
     ("min", FieldValue.num s.min),
     ("max", FieldValue.num s.max),
     ("step", FieldValue.num s.step),
     ("initial", FieldValue.num s.initial),
     ("description", FieldValue.str s.description)]

structure Checkbox where
  name : String
  group : Option String
  has_callback : Bool
  initial : Bool
  description : String
  checked : Bool
deriving DecidableEq, Repr

/-- `Checkbox.handle_event`: `self.checked = bool(value)`; truthiness never
raises on any payload shape, so the decode is total. -/
def Checkbox.handle_event (c : Checkbox) (v : PyValue) :
    Except String (Checkbox × List Call) :=
  Except.ok ({ c with checked := pyTruthy v },
    if c.has_callback then [Call.withBool (pyTruthy v)] else [])

def Checkbox.value (c : Checkbox) : Bool := c.checked

def Checkbox.dispatch (c : Checkbox) (v : PyValue) : Checkbox :=
  match c.handle_event v with
  | Except.ok (c', _) => c'
  | Except.error _ => c

def Checkbox.runEvents (c : Checkbox) (es : List PyValue) : Checkbox :=
  es.foldl Checkbox.dispatch c

def Checkbox.to_dict (c : Checkbox) (viewerId : Option String) :
    List (String × FieldValue) :=
  addCommonFields c.group viewerId
    [("id", FieldValue.str c.name),
     ("name", FieldValue.str c.name),
     ("type", FieldValue.str "checkbox"),
     ("initial", FieldValue.boolv c.initial),
     ("description", FieldValue.str c.description)]

structure Dropdown where
  name : String
  group : Option String
  has_callback : Bool
  options : List String
  initial : String
  description : String
  current_value : String
deriving DecidableEq, Repr

/-- `Dropdown.handle_event`: `self.current_value = str(value)`; `str()` is
total and no containment check against `options` is performed. -/
def Dropdown.handle_event (d : Dropdown) (v : PyValue) :
    Except String (Dropdown × List Call) :=
  Except.ok ({ d with current_value := pyStr v },
    if d.has_callback then [Call.withStr (pyStr v)] else [])

def Dropdown.value (d : Dropdown) : String := d.current_value

def Dropdown.dispatch (d : Dropdown) (v : PyValue) : Dropdown :=
  match d.handle_event v with
  | Except.ok (d', _) => d'
  | Except.error _ => d

def Dropdown.runEvents (d : Dropdown) (es : List PyValue) : Dropdown :=
  es.foldl Dropdown.dispatch d

def Dropdown.to_dict (d : Dropdown) (viewerId : Option String) :
    List (String × FieldValue) :=
  addCommonFields d.group viewerId
    [("id", FieldValue.str d.name),
     ("name", FieldValue.str d.name),
     ("type", FieldValue.str "dropdown"),
     ("options", FieldValue.strList d.options),
     ("initial", FieldValue.str d.initial),
     ("description", FieldValue.str d.description)]

structure ColorPicker where
  name : String
  group : Option String
  has_callback : Bool
  initial : List ℚ
  current_value : List ℚ
deriving DecidableEq, Repr

/-- `ColorPicker.handle_event`:
`self.current_value = np.asarray(value, dtype=np.float32)`; a failing
coercion raises before the field store. -/
def ColorPicker.handle_event (p : ColorPicker) (v : PyValue) :
    Except String (ColorPicker × List Call) :=
  match npAsarrayF32 v with
  | Option.none => Except.error "DecodeError"
  | some l =>
      Except.ok ({ p with current_value := l },
        if p.has_callback then [Call.withFloats l] else [])

def ColorPicker.value (p : ColorPicker) : List ℚ := p.current_value

def ColorPicker.dispatch (p : ColorPicker) (v : PyValue) : ColorPicker :=
  match p.handle_event v with
  | Except.ok (p', _) => p'
  | Except.error _ => p

def ColorPicker.runEvents (p : ColorPicker) (es : List PyValue) : ColorPicker :=
  es.foldl ColorPicker.dispatch p

def ColorPicker.to_dict (p : ColorPicker) (viewerId : Option String) :
    List (String × FieldValue) :=
  addCommonFields p.group viewerId
    [("id", FieldValue.str p.name),
     ("name", FieldValue.str p.name),
     ("type", FieldValue.str "color_picker"),
     ("initial", FieldValue.numList p.initial)]

/-- Common fields every control carries (`UIControl.__init__`): its name and
its optional group reference. `Group.add_control` acts only on these, so it
is embedded once over them rather than per variant. -/
structure CommonFields where
  name : String
  group : Option String
deriving DecidableEq, Repr

structure Group where
  name : String
  collapsed : Bool
  controls : List String
deriving DecidableEq, Repr

/-- `Group.add_control`: sets the group reference of the target control to the
name of this group and appends the name of the control to the membership list. -/
def Group.add_control (g : Group) (c : CommonFields) : Group × CommonFields :=
  ({ g with controls := g.controls ++ [c.name] }, { c with group := some g.name })

def Group.value (g : Group) : Bool := g.collapsed

def Group.to_dict (g : Group) (viewerId : Option String) :
    List (String × FieldValue) :=
  [("id", FieldValue.str g.name),
   ("name", FieldValue.str g.name),
   ("type", FieldValue.str "group"),
   ("collapsed", FieldValue.boolv g.collapsed),
   ("controls", FieldValue.strList g.controls)] ++
  (match viewerId with
   | some v => [("viewer_id", FieldValue.str v)]
   | Option.none => [])

structure Label where
  name : String
  group : Option String
  has_callback : Bool
  text : String
deriving DecidableEq, Repr

/-- `Label.handle_event`: literally `return None` — no field is touched. -/
def Label.handle_event (l : Label) (_v : PyValue) : Label × Option String :=
  (l, Option.none)

def Label.value (l : Label) : String := l.text

/-- `Label.update`: store the text, invoke the callback (if bound) with the
session only, then emit one `update_label` notice — unconditionally. -/
def Label.update (l : Label) (text : String) : Label × List Call × List Emit :=
  ({ l with text := text },
   if l.has_callback then [Call.sessionOnly] else [],
   [Emit.updateLabel l.name text])

def Label.to_dict (l : Label) (viewerId : Option String) :
    List (String × FieldValue) :=
  addCommonFields l.group viewerId
    [("id", FieldValue.str l.name),
     ("name", FieldValue.str l.name),
     ("type", FieldValue.str "label"),
     ("text", FieldValue.str l.text)]

structure DownloadButton where
  name : String
  group : Option String
  has_callback : Bool
  filename : String
deriving DecidableEq, Repr

/-- What a DownloadButton callback returned: Python `None`, a bytes-like
object (`bytes(result)` succeeds), or a readable object (`result.read()`
returns the bytes). -/
inductive DownloadResult where
  | noneRes
  | bytesRes (bs : List ℕ)
  | readableRes (bs : List ℕ)
deriving DecidableEq, Repr

/-- `DownloadButton.handle_event`: with a bound callback, invoke it with the
session only; if it returned a non-None result, extract the bytes (via
`.read()` when available, else `bytes(result)`) and emit exactly one
`download_file` with the configured filename; a None result emits nothing. -/
def DownloadButton.handle_event (d : DownloadButton) (result : DownloadResult) :
    List Call × List Emit :=
  if d.has_callback then
    ([Call.sessionOnly],
     match result with
     | DownloadResult.noneRes => []
     | DownloadResult.bytesRes bs => [Emit.downloadFile bs d.filename]
     | DownloadResult.readableRes bs => [Emit.downloadFile bs d.filename])
  else ([], [])

def DownloadButton.to_dict (d : DownloadButton) (viewerId : Option String) :
    List (String × FieldValue) :=
  addCommonFields d.group viewerId
    [("id", FieldValue.str d.name),
     ("name", FieldValue.str d.name),
     ("type", FieldValue.str "download_button")]

/-- A numpy image array: its shape and its flat element list. `dtypeUint8`
records whether `img.dtype == np.uint8` (in which case the elements are
already byte values). -/
structure NpArray where
  shape : List ℕ
  dtypeUint8 : Bool
  data : List ℚ
deriving DecidableEq, Repr

/-- `img.max()` over the flat elements (numpy raises on an empty array; the
claims only use non-empty arrays, the empty case is given max 0). -/
def npMax : List ℚ → ℚ
  | [] => 0
  | x :: xs => xs.foldl Max.max x

/-- Truncation toward zero, as the C cast behind `astype` performs. -/
def truncTowardZero (q : ℚ) : ℤ := if q < 0 then -(Int.floor (-q)) else Int.floor q

/-- `astype(np.uint8)` on one element: C-style truncation toward zero,
wrapped mod 256. -/
def npCastUint8 (q : ℚ) : ℕ := ((truncTowardZero q) % 256).toNat

/-- One input image as `_process_images` receives it: an already-encoded
base64 string, or a numpy array. (PIL image objects, which are passed to the
external encoder untouched, are outside the scope of the model.) -/
inductive ImageInput where
  | b64 (s : String)
  | arr (a : NpArray)
deriving DecidableEq, Repr

/-- The `images` argument: a single image or a list of images; the method
first normalizes to a list. -/
inductive GalleryInput where
  | single (i : ImageInput)
  | list (l : List ImageInput)
deriving DecidableEq, Repr

def GalleryInput.normalize : GalleryInput → List ImageInput
  | .single i => [i]
  | .list l => l

/-- The shape dispatch of `_process_images` followed by the external
`Image.fromarray` call, for normalized bytes: a 2-dimensional array is
encoded as grayscale; otherwise `img.shape[2]` is read (an `IndexError`
for fewer than 3 dimensions) and 3 or 4 selects RGB or RGBA — but
`Image.fromarray` accepts those modes only for exactly 3 dimensions and
raises on more; any other trailing channel count raises `ValueError`.
Every such failure is caught by the surrounding handler and re-raised as
a construction error. -/
def pilEncode (shape : List ℕ) (bytes : List ℕ) :
    Except String (String × List ℕ) :=
  match shape with
  | [_, _] => Except.ok ("L", bytes)
  | _ :: _ :: c :: rest =>
      if c = 3 then
        match rest with
        | [] => Except.ok ("RGB", bytes)
        | _ :: _ => Except.error "Failed to process image: too many dimensions"
      else if c = 4 then
        match rest with
        | [] => Except.ok ("RGBA", bytes)
        | _ :: _ => Except.error "Failed to process image: too many dimensions"
      else Except.error "Failed to process image: unsupported image shape"
  | _ => Except.error "Failed to process image: index error"

/-- The array branch of `ImageGallery._process_images` for one numpy array:
dtype/range normalization to uint8, then the shape dispatch and encoding
step `pilEncode`. -/
def processArray (a : NpArray) : Except String (String × List ℕ) :=
  let bytes : List ℕ :=
    if a.dtypeUint8 then a.data.map npCastUint8
    else if npMax a.data ≤ 1 then a.data.map (fun q => npCastUint8 (q * 255))
    else a.data.map npCastUint8
  pilEncode a.shape bytes

/-- `ImageGallery._process_images`: strings pass through; arrays run through
`processArray` and are PNG-encoded (external encoder abstracted by the
`EncodedImage.png` constructor); the first failure aborts the whole call. -/
def process_images (images : GalleryInput) : Except String (List EncodedImage) :=
  images.normalize.mapM fun i =>
    match i with
    | ImageInput.b64 s => Except.ok (EncodedImage.passthrough s)
    | ImageInput.arr a =>
        (processArray a).map fun mb => EncodedImage.png mb.1 mb.2

structure ImageGallery where
  name : String
  group : Option String
  has_callback : Bool
  thumbnail_size : ℕ
  columns : ℕ
  rows_per_page : Option ℕ
  selected_index : Option ℤ
  current_page : ℤ
  images : List EncodedImage
deriving DecidableEq, Repr

/-- An inbound gallery payload (`{type, index|page}` dict); fields absent
from the dict decode to `none`. `notDict` covers a payload that is `None`
or not a dict, and `otherType` a dict with an unrecognized `type` tag. -/
inductive GalleryEvent where
  | imageClick (index : Option ℤ)
  | pageChange (page : Option ℤ)
  | otherType
  | notDict
deriving DecidableEq, Repr

/-- `ImageGallery.handle_event`: an `imageClick` with an index stores the
selection and invokes the callback with `(session, index)`; a `pageChange`
with a page stores the page with no callback; everything else is ignored. -/
def ImageGallery.handle_event (g : ImageGallery) (e : GalleryEvent) :
    ImageGallery × List Call :=
  match e with
  | GalleryEvent.imageClick (some i) =>
      ({ g with selected_index := some i },
       if g.has_callback then [Call.withIndex i] else [])
  | GalleryEvent.imageClick Option.none => (g, [])
  | GalleryEvent.pageChange (some p) => ({ g with current_page := p }, [])
  | GalleryEvent.pageChange Option.none => (g, [])
  | GalleryEvent.otherType => (g, [])
  | GalleryEvent.notDict => (g, [])

def ImageGallery.value (g : ImageGallery) : Option ℤ := g.selected_index

/-- `ImageGallery.update`: re-run the processing pipeline, reset selection
and page, then emit one gallery-update notice with the new sequence. A
pipeline failure raises before any field is stored. -/
def ImageGallery.update (g : ImageGallery) (imagesIn : GalleryInput) :
    Except String (ImageGallery × List Emit) :=
  (process_images imagesIn).map fun imgs =>
    ({ g with images := imgs, selected_index := Option.none, current_page := 0 },
     [Emit.updateImageGallery g.name imgs])

/-- Teardown actions `HeadlessBrowser.close` issues against the external
engine, in order. -/
inductive TeardownAct where
  | closeBrowser
  | stopEngine
deriving DecidableEq, Repr

/-- The headless-capture handle (`HeadlessBrowser` dataclass). `browserField`
and `pwField` are the truthiness of the stored handles (both set by
`launch`); `browserOpen` / `pwRunning` track the external engine state.
Closing never clears the stored handles, only the engine state. -/
structure HeadlessBrowser where
  browserField : Bool
  pwField : Bool
  browserOpen : Bool
  pwRunning : Bool
deriving DecidableEq, Repr

/-- `HeadlessBrowser.close`: `try: browser.close() finally: pw.stop()`.
`browserCloseFails` injects a fault into the external `browser.close()`
call (the Playwright `close`/`stop` operations are modelled as otherwise non-raising and
idempotent, per their documented contract). Returns the handle after the
call, the teardown actions attempted in order, and whether an exception
propagates to the caller (re-raised after the `finally` block runs). -/
def HeadlessBrowser.close (browserCloseFails : Bool) (h : HeadlessBrowser) :
    HeadlessBrowser × List TeardownAct × Bool :=
  let tryStep : HeadlessBrowser × List TeardownAct × Bool :=
    if h.browserField then
      if browserCloseFails then (h, [TeardownAct.closeBrowser], true)
      else ({ h with browserOpen := false }, [TeardownAct.closeBrowser], false)
    else (h, [], false)
  let h1 := tryStep.1
  if h1.pwField then
    ({ h1 with pwRunning := false },
     tryStep.2.1 ++ [TeardownAct.stopEngine], tryStep.2.2)
  else (h1, tryStep.2.1, tryStep.2.2)

/-- The handle `launch` returns on success: all four dataclass fields hold
live objects, browser and driver running. -/
def launchedHandle : HeadlessBrowser :=
  { browserField := true, pwField := true, browserOpen := true, pwRunning := true }

/-! ### Helper lemmas -/

theorem slider_runEvents_cons (s : Slider) (v : PyValue) (es : List PyValue) :
    s.runEvents (v :: es) = (s.dispatch v).runEvents es := rfl

theorem slider_dispatch_decode_fail (s : Slider) (v : PyValue)
    (h : pyFloat v = Option.none) : s.dispatch v = s := by
  simp [Slider.dispatch, Slider.handle_event, h]

theorem slider_dispatch_decode_ok (s : Slider) (v : PyValue) (q : ℚ)
    (h : pyFloat v = some q) : s.dispatch v = { s with current_value := q } := by
  simp [Slider.dispatch, Slider.handle_event, h]

theorem slider_runEvents_filter_valid (s : Slider) (es : List PyValue) :
    s.runEvents (es.filter fun v => (pyFloat v).isSome) = s.runEvents es := by
  induction es generalizing s with
  | nil => rfl
  | cons v es ih =>
      cases h : pyFloat v with
      | none =>
          have hf : (v :: es).filter (fun v => (pyFloat v).isSome) =
              es.filter (fun v => (pyFloat v).isSome) := by
            simp [List.filter_cons, h]
          rw [hf, ih, slider_runEvents_cons, slider_dispatch_decode_fail s v h]
      | some q =>
          have hf : (v :: es).filter (fun v => (pyFloat v).isSome) =
              v :: es.filter (fun v => (pyFloat v).isSome) := by
            simp [List.filter_cons, h]
          rw [hf, slider_runEvents_cons, slider_runEvents_cons, ih]

theorem colorpicker_runEvents_cons (p : ColorPicker) (v : PyValue)
    (es : List PyValue) :
    p.runEvents (v :: es) = (p.dispatch v).runEvents es := rfl

theorem colorpicker_dispatch_decode_fail (p : ColorPicker) (v : PyValue)
    (h : npAsarrayF32 v = Option.none) : p.dispatch v = p := by
  simp [ColorPicker.dispatch, ColorPicker.handle_event, h]

theorem colorpicker_dispatch_decode_ok (p : ColorPicker) (v : PyValue)
    (l : List ℚ) (h : npAsarrayF32 v = some l) :
    p.dispatch v = { p with current_value := l } := by
  simp [ColorPicker.dispatch, ColorPicker.handle_event, h]

theorem colorpicker_runEvents_filter_valid (p : ColorPicker)
    (es : List PyValue) :
    p.runEvents (es.filter fun v => (npAsarrayF32 v).isSome) = p.runEvents es := by
  induction es generalizing p with
  | nil => rfl
  | cons v es ih =>
      cases h : npAsarrayF32 v with
      | none =>
          have hf : (v :: es).filter (fun v => (npAsarrayF32 v).isSome) =
              es.filter (fun v => (npAsarrayF32 v).isSome) := by
            simp [List.filter_cons, h]
          rw [hf, ih, colorpicker_runEvents_cons,
            colorpicker_dispatch_decode_fail p v h]
      | some l =>
          have hf : (v :: es).filter (fun v => (npAsarrayF32 v).isSome) =
              v :: es.filter (fun v => (npAsarrayF32 v).isSome) := by
            simp [List.filter_cons, h]
          rw [hf, colorpicker_runEvents_cons, colorpicker_runEvents_cons, ih]

/-! ### Concrete fixtures used by witness theorems -/

def testSlider : Slider :=
  { name := "s", group := Option.none, has_callback := true, min := 0, max := 1,
    step := 1/10, initial := 1/2, description := "", current_value := 1/2 }

def testCheckbox : Checkbox :=
  { name := "c", group := Option.none, has_callback := true, initial := false,
    description := "", checked := false }

def testDropdown : Dropdown :=
  { name := "d", group := Option.none, has_callback := true,
    options := ["a", "b"], initial := "a", description := "",
    current_value := "a" }

def testColorPicker : ColorPicker :=
  { name := "p", group := Option.none, has_callback := true,
    initial := [1/2, 1/2, 1/2, 1], current_value := [1/2, 1/2, 1/2, 1] }

/-! ### Claims -/

/-- C1: for Slider, Checkbox, Dropdown and ColorPicker, an inbound payload
whose decode step raises leaves the stored state unchanged: the dispatched
state after any interleaving of valid and invalid events equals the state
after the valid events alone, and a single failing event preserves
`value()`. For Checkbox and Dropdown the decode (`bool(value)`,
`str(value)`) is total on every payload shape, so no inbound payload can
fail their decode step (`handle_event` always succeeds). -/
theorem controls_decode_failure_leaves_value_unchanged :
    (∀ (s : Slider) (v : PyValue), pyFloat v = Option.none →
      (s.dispatch v).value = s.value) ∧
    (∀ (s : Slider) (es : List PyValue),
      (s.runEvents (es.filter fun v => (pyFloat v).isSome)).value =
        (s.runEvents es).value) ∧
    (∀ (c : Checkbox) (v : PyValue), (c.handle_event v).isOk = true) ∧
    (∀ (d : Dropdown) (v : PyValue), (d.handle_event v).isOk = true) ∧
    (∀ (p : ColorPicker) (v : PyValue), npAsarrayF32 v = Option.none →
      (p.dispatch v).value = p.value) ∧
    (∀ (p : ColorPicker) (es : List PyValue),
      (p.runEvents (es.filter fun v => (npAsarrayF32 v).isSome)).value =
        (p.runEvents es).value) := by
  refine ⟨?_, ?_, ?_, ?_, ?_, ?_⟩
  · intro s v h
    rw [slider_dispatch_decode_fail s v h]
  · intro s es
    rw [slider_runEvents_filter_valid]
  · intro c v
    simp [Checkbox.handle_event, Except.isOk, Except.toBool]
  · intro d v
    simp [Dropdown.handle_event, Except.isOk, Except.toBool]
  · intro p v h
    rw [colorpicker_dispatch_decode_fail p v h]
  · intro p es
    rw [colorpicker_runEvents_filter_valid]

/-- Witness for C1 at concrete inputs: a string payload fails the Slider
decode and a None payload fails the ColorPicker decode, and in both cases
the dispatched control keeps its previous `value()`. -/
theorem controls_decode_failure_leaves_value_unchanged_witness :
    pyFloat (PyValue.str "abc") = Option.none ∧
    (testSlider.dispatch (PyValue.str "abc")).value = testSlider.value ∧
    npAsarrayF32 PyValue.none = Option.none ∧
    (testColorPicker.dispatch PyValue.none).value = testColorPicker.value :=
  ⟨rfl,
   controls_decode_failure_leaves_value_unchanged.1 testSlider (PyValue.str "abc") rfl,
   rfl,
   controls_decode_failure_leaves_value_unchanged.2.2.2.2.1 testColorPicker PyValue.none rfl⟩

/-- C2: for a well-formed payload the decoded value is stored
unconditionally (the statement quantifies over every pre-state, including
one already holding the decoded value): Slider stores `float(v)`, Checkbox
stores `bool(v)`, Dropdown stores `str(v)`, ColorPicker stores the coerced
float 4-tuple; and Dropdown accepts every caller-supplied string with no
containment check against `options` (last conjunct: the string need not be
an option). -/
theorem controls_wellformed_event_overwrites_value :
    (∀ (s : Slider) (v : PyValue) (q : ℚ), pyFloat v = some q →
      (s.dispatch v).value = q) ∧
    (∀ (c : Checkbox) (v : PyValue), (c.dispatch v).value = pyTruthy v) ∧
    (∀ (d : Dropdown) (v : PyValue), (d.dispatch v).value = pyStr v) ∧
    (∀ (p : ColorPicker) (a b c d : ℚ),
      (p.dispatch (PyValue.tuple4 a b c d)).value = [a, b, c, d]) ∧
    (∀ (d : Dropdown) (s : String), s ∉ d.options →
      (d.dispatch (PyValue.str s)).value = s) := by
  refine ⟨?_, ?_, ?_, ?_, ?_⟩
  · intro s v q h
    rw [slider_dispatch_decode_ok s v q h]
    rfl
  · intro c v
    simp [Checkbox.dispatch, Checkbox.handle_event, Checkbox.value]
  · intro d v
    simp [Dropdown.dispatch, Dropdown.handle_event, Dropdown.value]
  · intro p a b c d
    rw [colorpicker_dispatch_decode_ok p (PyValue.tuple4 a b c d) [a, b, c, d] rfl]
    rfl
  · intro d s _h
    simp [Dropdown.dispatch, Dropdown.handle_event, Dropdown.value, pyStr]

/-- Witness for C2: a float payload equal to the current Slider value is
still stored (overwrite is unconditional), and a string outside the
Dropdown options is accepted verbatim. -/
theorem controls_wellformed_event_overwrites_value_witness :
    pyFloat (PyValue.float (1/2)) = some (1/2) ∧
    (testSlider.dispatch (PyValue.float (1/2))).value = 1/2 ∧
    "zzz" ∉ testDropdown.options ∧
    (testDropdown.dispatch (PyValue.str "zzz")).value = "zzz" :=
  ⟨rfl,
   controls_wellformed_event_overwrites_value.1 testSlider (PyValue.float (1/2)) (1/2) rfl,
   by decide,
   controls_wellformed_event_overwrites_value.2.2.2.2 testDropdown "zzz" (by decide)⟩

/-- C3: `delete` removes the registry entry when present, returns normally
(never `KeyError`) whether or not the entry is present — in particular a
second delete of the same name also returns normally — and in every case
emits exactly one `emit_delete_control` with the control name. -/
theorem uicontrol_delete_idempotent_single_emit :
    ∀ (name : String) (registry : List String),
      UIControl.delete name registry =
        Except.ok (registry.filter (fun k => ¬ (k = name)),
          [Emit.deleteControl name]) ∧
      name ∉ registry.filter (fun k => ¬ (k = name)) ∧
      UIControl.delete name (registry.filter (fun k => ¬ (k = name))) =
        Except.ok (registry.filter (fun k => ¬ (k = name)),
          [Emit.deleteControl name]) := by
  intro name registry
  refine ⟨?_, ?_, ?_⟩
  · by_cases h : name ∈ registry
    · simp only [UIControl.delete, if_pos h]
      rfl
    · have : registry.filter (fun k => ¬ (k = name)) = registry := by
        apply List.filter_eq_self.mpr
        intro a ha
        simp
        intro he
        exact h (he ▸ ha)
      simp only [UIControl.delete, if_neg h]
      rw [show ((do
        let y ← Except.ok registry
        Except.ok (y, [Emit.deleteControl name])) :
          Except String (List String × List Emit)) =
        Except.ok (registry, [Emit.deleteControl name]) from rfl, this]
  · intro hmem
    have := (List.mem_filter.mp hmem).2
    simp at this
  · have hn : name ∉ registry.filter (fun k => ¬ (k = name)) := by
      intro hmem
      have := (List.mem_filter.mp hmem).2
      simp at this
    have : (registry.filter (fun k => ¬ (k = name))).filter
        (fun k => ¬ (k = name)) = registry.filter (fun k => ¬ (k = name)) := by
      apply List.filter_eq_self.mpr
      intro a ha
      have := (List.mem_filter.mp ha).2
      simpa using this
    simp only [UIControl.delete, if_neg hn]
    rfl

/-- C10: the serialized envelope of Slider, Checkbox, Dropdown and
ColorPicker never contains the runtime value (replacing the runtime field
leaves the envelope unchanged), hence it is identical before and after any
sequence of inbound events; `to_dict` is a pure function of the control, so
producing it mutates nothing. -/
theorem serialize_static_only_invariant :
    (∀ (s : Slider) (q : ℚ) (vid : Option String),
      Slider.to_dict { s with current_value := q } vid = s.to_dict vid) ∧
    (∀ (s : Slider) (es : List PyValue) (vid : Option String),
      (s.runEvents es).to_dict vid = s.to_dict vid) ∧
    (∀ (c : Checkbox) (b : Bool) (vid : Option String),
      Checkbox.to_dict { c with checked := b } vid = c.to_dict vid) ∧
    (∀ (c : Checkbox) (v : PyValue) (vid : Option String),
      (c.dispatch v).to_dict vid = c.to_dict vid) ∧
    (∀ (d : Dropdown) (s : String) (vid : Option String),
      Dropdown.to_dict { d with current_value := s } vid = d.to_dict vid) ∧
    (∀ (d : Dropdown) (v : PyValue) (vid : Option String),
      (d.dispatch v).to_dict vid = d.to_dict vid) ∧
    (∀ (p : ColorPicker) (l : List ℚ) (vid : Option String),
      ColorPicker.to_dict { p with current_value := l } vid = p.to_dict vid) ∧
    (∀ (p : ColorPicker) (es : List PyValue) (vid : Option String),
      (p.runEvents es).to_dict vid = p.to_dict vid) := by
  have hs : ∀ (s : Slider) (v : PyValue), (s.dispatch v).to_dict = s.to_dict := by
    intro s v
    cases h : pyFloat v with
    | none => rw [slider_dispatch_decode_fail s v h]
    | some q =>
        rw [slider_dispatch_decode_ok s v q h]
        rfl
  have hp : ∀ (p : ColorPicker) (v : PyValue),
      (p.dispatch v).to_dict = p.to_dict := by
    intro p v
    cases h : npAsarrayF32 v with
    | none => rw [colorpicker_dispatch_decode_fail p v h]
    | some l =>
        rw [colorpicker_dispatch_decode_ok p v l h]
        rfl
  refine ⟨fun s q vid => rfl, ?_, fun c b vid => rfl, ?_,
    fun d s vid => rfl, ?_, fun p l vid => rfl, ?_⟩
  · intro s es vid
    induction es generalizing s with
    | nil => rfl
    | cons v es ih =>
        rw [slider_runEvents_cons, ih, congrFun (hs s v) vid]
  · intro c v vid
    cases v <;> rfl
  · intro d v vid
    cases v <;> rfl
  · intro p es vid
    induction es generalizing p with
    | nil => rfl
    | cons v es ih =>
        rw [colorpicker_runEvents_cons, ih, congrFun (hp p v) vid]

/-- C5: `DownloadButton.handle_event` with a bound callback invokes it with
the session only; a `None` result produces zero `emit_download_file` calls
and no error, a bytes or readable result produces exactly one such call
carrying the extracted bytes and the configured filename. -/
theorem download_button_event_emits_iff_payload :
    ∀ (d : DownloadButton), d.has_callback = true →
      ∀ (r : DownloadResult),
        (d.handle_event r).1 = [Call.sessionOnly] ∧
        (r = DownloadResult.noneRes → (d.handle_event r).2 = []) ∧
        (∀ bs, r = DownloadResult.bytesRes bs →
          (d.handle_event r).2 = [Emit.downloadFile bs d.filename]) ∧
        (∀ bs, r = DownloadResult.readableRes bs →
          (d.handle_event r).2 = [Emit.downloadFile bs d.filename]) := by
  intro d hcb r
  refine ⟨?_, ?_, ?_, ?_⟩
  · simp [DownloadButton.handle_event, hcb]
  · intro h
    subst h
    simp [DownloadButton.handle_event, hcb]
  · intro bs h
    subst h
    simp [DownloadButton.handle_event, hcb]
  · intro bs h
    subst h
    simp [DownloadButton.handle_event, hcb]

def testDownloadButton : DownloadButton :=
  { name := "dl", group := Option.none, has_callback := true,
    filename := "out.bin" }

/-- Witness for C5: concrete download button; a `None` callback result
emits nothing, a bytes result emits exactly one file with the configured
filename. -/
theorem download_button_event_emits_iff_payload_witness :
    (testDownloadButton.handle_event DownloadResult.noneRes).2 = [] ∧
    (testDownloadButton.handle_event (DownloadResult.bytesRes [1, 2])).2 =
      [Emit.downloadFile [1, 2] "out.bin"] ∧
    (testDownloadButton.handle_event (DownloadResult.bytesRes [1, 2])).1 =
      [Call.sessionOnly] :=
  ⟨(download_button_event_emits_iff_payload testDownloadButton rfl
      DownloadResult.noneRes).2.1 rfl,
   (download_button_event_emits_iff_payload testDownloadButton rfl
      (DownloadResult.bytesRes [1, 2])).2.2.1 [1, 2] rfl,
   (download_button_event_emits_iff_payload testDownloadButton rfl
      (DownloadResult.bytesRes [1, 2])).1⟩

/-- C6: `Label.update` overwrites the stored text, invokes the bound
callback (when present) with the session only, and emits exactly one
`update_label` notice unconditionally — also when the new text equals the
old (the statement quantifies over every pre-state); `Label.handle_event`
is a no-op returning nothing and touching no field. -/
theorem label_update_and_noop_event :
    ∀ (l : Label) (t : String),
      (l.update t).1.text = t ∧
      (l.update t).2.2 = [Emit.updateLabel l.name t] ∧
      (l.has_callback = true → (l.update t).2.1 = [Call.sessionOnly]) ∧
      (l.has_callback = false → (l.update t).2.1 = []) ∧
      (∀ v, l.handle_event v = (l, Option.none)) := by
  intro l t
  refine ⟨rfl, rfl, ?_, ?_, fun v => rfl⟩
  · intro h
    simp [Label.update, h]
  · intro h
    simp [Label.update, h]

def testLabel : Label :=
  { name := "lab", group := Option.none, has_callback := true, text := "old" }

/-- Witness for C6: updating a concrete label (to the same text it already
holds) still emits one notice and one session-only callback invocation. -/
theorem label_update_and_noop_event_witness :
    (testLabel.update "old").1.text = "old" ∧
    (testLabel.update "old").2.2 = [Emit.updateLabel "lab" "old"] ∧
    (testLabel.update "old").2.1 = [Call.sessionOnly] :=
  ⟨(label_update_and_noop_event testLabel "old").1,
   (label_update_and_noop_event testLabel "old").2.1,
   (label_update_and_noop_event testLabel "old").2.2.1 rfl⟩

/-- C4: whenever `ImageGallery.update` returns normally, the resulting
gallery holds exactly the freshly re-processed image sequence, its
selection is unset and its page is zero — whatever selection or page the
pre-state had — all other fields are untouched, and exactly one
`update_image_gallery` emission is produced, carrying the new sequence. -/
theorem image_gallery_update_resets_and_emits_once :
    ∀ (g : ImageGallery) (imagesIn : GalleryInput) (gp : ImageGallery)
      (emits : List Emit),
      g.update imagesIn = Except.ok (gp, emits) →
        gp.selected_index = Option.none ∧
        gp.current_page = 0 ∧
        process_images imagesIn = Except.ok gp.images ∧
        emits = [Emit.updateImageGallery g.name gp.images] ∧
        gp.name = g.name ∧
        gp.group = g.group ∧
        gp.has_callback = g.has_callback ∧
        gp.thumbnail_size = g.thumbnail_size ∧
        gp.columns = g.columns ∧
        gp.rows_per_page = g.rows_per_page := by
  intro g imagesIn gp emits h
  unfold ImageGallery.update at h
  cases hpi : process_images imagesIn with
  | error e =>
      rw [hpi] at h
      exact absurd h (by simp [Except.map])
  | ok imgs =>
      rw [hpi] at h
      simp only [Except.map, Except.ok.injEq] at h
      obtain ⟨hgp, hem⟩ := (Prod.mk.injEq _ _ _ _).mp h
      subst hgp
      subst hem
      exact ⟨rfl, rfl, rfl, rfl, rfl, rfl, rfl, rfl, rfl, rfl⟩

def testGallery : ImageGallery :=
  { name := "gal", group := Option.none, has_callback := true,
    thumbnail_size := 150, columns := 3, rows_per_page := Option.none,
    selected_index := some 2, current_page := 5,
    images := [EncodedImage.passthrough "oldimg"] }

/-- Witness for C4: a concrete gallery whose previous events selected image
2 and page 5 is updated with one pre-encoded image; selection and page are
reset and one emission with the new sequence is produced. -/
theorem image_gallery_update_resets_and_emits_once_witness :
    testGallery.selected_index = some 2 ∧
    testGallery.current_page = 5 ∧
    (testGallery.update (GalleryInput.single (ImageInput.b64 "newimg")) =
      Except.ok ({ testGallery with
          images := [EncodedImage.passthrough "newimg"],
          selected_index := Option.none, current_page := 0 },
        [Emit.updateImageGallery "gal" [EncodedImage.passthrough "newimg"]])) ∧
    ({ testGallery with
        images := [EncodedImage.passthrough "newimg"],
        selected_index := Option.none,
        current_page := 0 } : ImageGallery).selected_index = Option.none ∧
    ({ testGallery with
        images := [EncodedImage.passthrough "newimg"],
        selected_index := Option.none,
        current_page := 0 } : ImageGallery).current_page = 0 :=
  ⟨rfl, rfl, rfl,
   (image_gallery_update_resets_and_emits_once testGallery
      (GalleryInput.single (ImageInput.b64 "newimg")) _ _ rfl).1,
   (image_gallery_update_resets_and_emits_once testGallery
      (GalleryInput.single (ImageInput.b64 "newimg")) _ _ rfl).2.1⟩

def testOuterGroup : Group :=
  { name := "g", collapsed := false, controls := [] }

def testMemberControl : CommonFields :=
  { name := "c", group := Option.none }

/-- C8 counterexample: `add_control` appends unconditionally, so adding the
same control to the same group twice leaves its name twice in the
membership list — the claimed "exactly once" fails for a group that
already contains the control. -/
theorem group_add_control_duplicate_counterexample :
    (((testOuterGroup.add_control testMemberControl).1.add_control
        testMemberControl).1).controls = ["c", "c"] ∧
    ¬ ((((testOuterGroup.add_control testMemberControl).1.add_control
        testMemberControl).1).controls.count "c" = 1) ∧
    Group.to_dict
        ((testOuterGroup.add_control testMemberControl).1.add_control
          testMemberControl).1 Option.none =
      [("id", FieldValue.str "g"), ("name", FieldValue.str "g"),
       ("type", FieldValue.str "group"),
       ("collapsed", FieldValue.boolv false),
       ("controls", FieldValue.strList ["c", "c"])] := by
  refine ⟨rfl, ?_, rfl⟩
  decide

/-- C8 (amended): `add_control` sets the group reference of the control to
the group name — so the serialized envelope of the control carries the
group name — and appends the control name to the membership list; when the
name was not already a member it therefore occurs exactly once, as the
last element (insertion order); repeated addition duplicates it. -/
theorem group_add_control_appends_and_tags :
    ∀ (g : Group) (c : CommonFields),
      ((g.add_control c).2).group = some g.name ∧
      ((g.add_control c).2).name = c.name ∧
      ((g.add_control c).1).controls = g.controls ++ [c.name] ∧
      (c.name ∉ g.controls →
        ((g.add_control c).1).controls.count c.name = 1) ∧
      (c.name ∉ g.controls →
        ((g.add_control c).1).controls.getLast? = some c.name) ∧
      (∀ (vid : Option String) (data : List (String × FieldValue)),
        ("group", FieldValue.str g.name) ∈
          addCommonFields ((g.add_control c).2).group vid data) ∧
      (("controls", FieldValue.strList (g.controls ++ [c.name])) ∈
        Group.to_dict (g.add_control c).1 Option.none) := by
  intro g c
  refine ⟨rfl, rfl, rfl, ?_, ?_, ?_, ?_⟩
  · intro h
    have : g.controls.count c.name = 0 := List.count_eq_zero.mpr h
    simp [Group.add_control, List.count_append, this]
  · intro _h
    simp [Group.add_control]
  · intro vid data
    cases vid <;> simp [addCommonFields, Group.add_control]
  · simp [Group.to_dict, Group.add_control]

/-- Witness for C8 (amended): adding a fresh control to a fresh group puts
its name in the membership list exactly once, at the end, and its group
reference becomes the group name. -/
theorem group_add_control_appends_and_tags_witness :
    ((testOuterGroup.add_control testMemberControl).2).group = some "g" ∧
    ((testOuterGroup.add_control testMemberControl).1).controls.count "c" = 1 ∧
    ((testOuterGroup.add_control
        testMemberControl).1).controls.getLast? = some "c" :=
  ⟨(group_add_control_appends_and_tags testOuterGroup testMemberControl).1,
   (group_add_control_appends_and_tags testOuterGroup
      testMemberControl).2.2.2.1 (by decide),
   (group_add_control_appends_and_tags testOuterGroup
      testMemberControl).2.2.2.2.1 (by decide)⟩

/-- C9: for a launched handle, `close` releases the browser (the
viewport/context owner) first and stops the engine second, in that order;
the engine stop is attempted — and the engine is stopped — even when the
external browser release raises (the exception is re-raised only after the
`finally` block ran); a fault-free `close` raises nothing, a second
fault-free `close` on the same handle raises nothing either and leaves the
state fixed (idempotent teardown). -/
theorem headless_close_teardown :
    ∀ (h : HeadlessBrowser),
      (h.browserField = true → h.pwField = true →
        ∀ f, (HeadlessBrowser.close f h).2.1 =
          [TeardownAct.closeBrowser, TeardownAct.stopEngine]) ∧
      (h.pwField = true → ∀ f,
        TeardownAct.stopEngine ∈ (HeadlessBrowser.close f h).2.1 ∧
        (HeadlessBrowser.close f h).1.pwRunning = false) ∧
      (∀ f, (HeadlessBrowser.close f h).2.2 = (f && h.browserField)) ∧
      ((HeadlessBrowser.close false
          ((HeadlessBrowser.close false h).1)).2.2 = false) ∧
      ((HeadlessBrowser.close false ((HeadlessBrowser.close false h).1)).1 =
        (HeadlessBrowser.close false h).1) := by
  intro h
  refine ⟨?_, ?_, ?_, ?_, ?_⟩
  · intro hb hp f
    cases f <;> simp [HeadlessBrowser.close, hb, hp]
  · intro hp f
    cases f <;>
      cases hb : h.browserField <;>
        simp [HeadlessBrowser.close, hb, hp]
  · intro f
    cases f <;>
      cases hb : h.browserField <;>
        cases hp : h.pwField <;>
          simp [HeadlessBrowser.close, hb, hp]
  · cases hb : h.browserField <;>
      cases hp : h.pwField <;>
        simp [HeadlessBrowser.close, hb, hp]
  · cases hb : h.browserField <;>
      cases hp : h.pwField <;>
        simp [HeadlessBrowser.close, hb, hp]

/-- Witness for C9 at the handle `launch` returns: closing releases the
browser then stops the engine, a faulted browser release still stops the
engine, and a double close neither raises nor changes the state again. -/
theorem headless_close_teardown_witness :
    (HeadlessBrowser.close false launchedHandle).2.1 =
      [TeardownAct.closeBrowser, TeardownAct.stopEngine] ∧
    (HeadlessBrowser.close true launchedHandle).1.pwRunning = false ∧
    (HeadlessBrowser.close false
      ((HeadlessBrowser.close false launchedHandle).1)).2.2 = false ∧
    (HeadlessBrowser.close false
        ((HeadlessBrowser.close false launchedHandle).1)).1 =
      (HeadlessBrowser.close false launchedHandle).1 :=
  ⟨(headless_close_teardown launchedHandle).1 rfl rfl false,
   ((headless_close_teardown launchedHandle).2.1 rfl true).2,
   (headless_close_teardown launchedHandle).2.2.2.1,
   (headless_close_teardown launchedHandle).2.2.2.2⟩

end Panopti
